import Mathlib

/-!
Backlight control of the tp69 keyboard (`keyboards/handwired/twadlee/tp69/tp69.c`).

Shallow embedding of the lightness mapper `cie_lightness`, the waveform table
`breathing_table`, the static setter `backlight_set` and the breathing engine.

Machine integers are natural numbers; every place where the C code computes in
`uint32_t` carries an explicit `% 2 ^ 32`, every conversion to `uint16_t` an explicit
`% 2 ^ 16`.
-/

namespace TP69

/-! ## Lightness mapper -/

/-- Source `cie_lightness` (tp69.c, lines 32-45). The argument is the `uint16_t` value `v`.
The low branch is `v / 9`; the other branch computes
`y = (((uint32_t)v + 10486) << 8) / (10486 + 0xFFFFUL)`, then `y = y * y * y >> 8`, both in
`uint32_t`, and clamps to `0xFFFF`. -/
def cie_lightness (v : Nat) : Nat :=
  if v ≤ 5243 then
    v / 9
  else
    let y := (((v + 10486) % 2 ^ 32) <<< 8) % 2 ^ 32 / ((10486 + 0xFFFF) % 2 ^ 32)
    let y := (((y * y) % 2 ^ 32 * y) % 2 ^ 32) >>> 8
    if y > 0xFFFF then 0xFFFF else y % 2 ^ 16

/-- The reference definition of the lightness mapper over unbounded integers, in the words
of the specification: `v / 9` up to the breakpoint 5243, and otherwise
`min(65535, floor(y^3 / 256))` with `y = floor((v + 10486) * 256 / 76021)`. -/
def cie_lightness_ref (v : Nat) : Nat :=
  if v ≤ 5243 then v / 9
  else min 65535 (((v + 10486) * 256 / 76021) ^ 3 / 256)

/-! ## Waveform table -/

/-- Source `BREATHING_STEPS` (tp69.c, line 84). -/
def BREATHING_STEPS : Nat := 128

/-- Source `breathing_table` (tp69.c, line 139). -/
def breathing_table : List Nat :=
  [0, 0, 0, 0, 0, 0, 0, 0, 0, 0, 0, 1, 1, 2, 3, 4, 5, 6, 8, 10, 12, 15, 17, 20, 24, 28, 32,
   36, 41, 46, 51, 57, 63, 70, 76, 83, 91, 98, 106, 113, 121, 129, 138, 146, 154, 162, 170,
   178, 185, 193, 200, 207, 213, 220, 225, 231, 235, 240, 244, 247, 250, 252, 253, 254, 255,
   254, 253, 252, 250, 247, 244, 240, 235, 231, 225, 220, 213, 207, 200, 193, 185, 178, 170,
   162, 154, 146, 138, 129, 121, 113, 106, 98, 91, 83, 76, 70, 63, 57, 51, 46, 41, 36, 32,
   28, 24, 20, 17, 15, 12, 10, 8, 6, 5, 4, 3, 2, 1, 1, 0, 0, 0, 0, 0, 0, 0, 0, 0, 0]

/-- The table read `breathing_table[i]`; an index outside the table reads as 0. -/
def table (i : Nat) : Nat := breathing_table.getD i 0

/-! ## Configuration store and PWM backend -/

/-- What the module reads from outside and never writes: the configuration constant
`BACKLIGHT_LEVELS` and the config store's `get_backlight_level()` and
`get_breathing_period()` (both return `uint8_t`). -/
structure Env where
  BACKLIGHT_LEVELS : Nat
  get_backlight_level : Nat
  get_breathing_period : Nat

/-- State of one hardware PWM channel: switched off, or driven with the duty fraction
`duty / 0xFFFF` (every call site passes `PWM_FRACTION_TO_WIDTH(&PWMD1, 0xFFFF, duty)`; the
channel is recorded by that `duty`). -/
inductive Channel where
  | disabled
  | enabled (duty : Nat)
  deriving DecidableEq, Repr

/-- The values stored in `g_pwm_config.callback`: `NULL` or the address of
`breathing_callback`. -/
inductive Callback where
  | NULL
  | breathing_callback
  deriving DecidableEq, Repr

/-- The mutable state: the globals `g_pwm_config.callback`, `g_breathing_halt` and
`g_breathing_counter` of tp69.c, and the PWM peripheral `PWMD1` (its periodic notification
and its channels, indexed by `pwmchannel_t`). -/
structure State where
  callback : Callback
  notification : Bool
  channels : Nat → Channel
  g_breathing_halt : Nat
  g_breathing_counter : Nat

/-- Source `BACKLIGHT_LED_COUNT` (tp69.c, line 25). -/
def BACKLIGHT_LED_COUNT : Nat := 5

/-- Source `g_backlight_channels` (tp69.c, line 28). -/
def g_backlight_channels : List Nat := [1, 0, 6, 5, 7]

/-- Modelled from the spec: the PWM backend operation `stop()` (`pwmStop`, not part of this
module). The peripheral is deactivated: no periodic notification, every channel off. -/
def pwmStop (s : State) : State :=
  { s with notification := false, channels := fun _ => Channel.disabled }

/-- Modelled from the spec: the PWM backend operation `start(config)` (`pwmStart`, not part
of this module). The peripheral is (re)started on `g_pwm_config` with every channel off and
no periodic notification. -/
def pwmStart (s : State) : State :=
  { s with notification := false, channels := fun _ => Channel.disabled }

/-- Modelled from the spec: the PWM backend operation `enable_channel(channel, duty)`
(`pwmEnableChannel` and `pwmEnableChannelI`, not part of this module). -/
def pwmEnableChannel (s : State) (channel duty : Nat) : State :=
  { s with channels := Function.update s.channels channel (Channel.enabled duty) }

/-- Modelled from the spec: the PWM backend operation `disable_channel(channel)`
(`pwmDisableChannel`, not part of this module). -/
def pwmDisableChannel (s : State) (channel : Nat) : State :=
  { s with channels := Function.update s.channels channel Channel.disabled }

/-- Modelled from the spec: the PWM backend operation `enable_periodic_notification()`
(`pwmEnablePeriodicNotification`, not part of this module). -/
def pwmEnablePeriodicNotification (s : State) : State :=
  { s with notification := true }

/-! ## Static setter and breathing engine -/

/-- Source `BREATHING_NO_HALT` (tp69.c, line 81). -/
def BREATHING_NO_HALT : Nat := 0

/-- Source `BREATHING_HALT_OFF` (tp69.c, line 82). -/
def BREATHING_HALT_OFF : Nat := 1

/-- Source `BREATHING_HALT_ON` (tp69.c, line 83). -/
def BREATHING_HALT_ON : Nat := 2

/-- Source `is_breathing` (tp69.c, line 89): `g_pwm_config.callback != NULL`. -/
def is_breathing (s : State) : Bool :=
  s.callback != Callback.NULL

/-- Source `backlight_set` (tp69.c, lines 62-77); `level` is the `uint8_t` argument. The
duty argument `0xFFFF * (uint32_t)level / BACKLIGHT_LEVELS` is computed in `uint32_t` and
converted to the `uint16_t` parameter of `cie_lightness`. -/
def backlight_set (env : Env) (level : Nat) (s : State) : State :=
  if level = 0 then
    g_backlight_channels.foldl (fun st ch => pwmDisableChannel st ch) s
  else
    if !is_breathing s then
      let duty := cie_lightness ((0xFFFF * level % 2 ^ 32 / env.BACKLIGHT_LEVELS) % 2 ^ 16)
      g_backlight_channels.foldl (fun st ch => pwmEnableChannel st ch duty) s
    else
      s

/-- Source `breathing_min` (tp69.c, line 91). -/
def breathing_min (s : State) : State :=
  { s with g_breathing_counter := 0 }

/-- Source `breathing_max` (tp69.c, line 92): `get_breathing_period() * 256 / 2` stored in
the `uint16_t` counter. -/
def breathing_max (env : Env) (s : State) : State :=
  { s with g_breathing_counter := (env.get_breathing_period * 256 / 2) % 2 ^ 16 }

/-- Source `breathing_interrupt_enable` (tp69.c, lines 94-104). -/
def breathing_interrupt_enable (s : State) : State :=
  let s := pwmStop s
  let s := { s with callback := Callback.breathing_callback }
  let s := pwmStart s
  let s := pwmEnablePeriodicNotification s
  g_backlight_channels.foldl (fun st ch => pwmEnableChannel st ch 0xFFFF) s

/-- Source `breathing_interrupt_disable` (tp69.c, lines 106-110). -/
def breathing_interrupt_disable (s : State) : State :=
  let s := pwmStop s
  let s := { s with callback := Callback.NULL }
  pwmStart s

/-- Source `breathing_enable` (tp69.c, lines 112-116). -/
def breathing_enable (s : State) : State :=
  let s := { s with g_breathing_counter := 0 }
  let s := { s with g_breathing_halt := BREATHING_NO_HALT }
  breathing_interrupt_enable s

/-- Source `breathing_pulse` (tp69.c, lines 118-125). -/
def breathing_pulse (env : Env) (s : State) : State :=
  let s := if env.get_backlight_level = 0 then breathing_min s else breathing_max env s
  let s := { s with g_breathing_halt := BREATHING_HALT_ON }
  breathing_interrupt_enable s

/-- Source `breathing_disable` (tp69.c, lines 127-130). -/
def breathing_disable (env : Env) (s : State) : State :=
  backlight_set env env.get_backlight_level (breathing_interrupt_disable s)

/-- Source `breathing_self_disable` (tp69.c, lines 132-137). -/
def breathing_self_disable (env : Env) (s : State) : State :=
  if env.get_backlight_level = 0 then
    { s with g_breathing_halt := BREATHING_HALT_OFF }
  else
    { s with g_breathing_halt := BREATHING_HALT_ON }

/-- Source `scale_backlight` (tp69.c, line 142): `v / BACKLIGHT_LEVELS * get_backlight_level()`
returned as `uint16_t`. -/
def scale_backlight (env : Env) (v : Nat) : Nat :=
  (v / env.BACKLIGHT_LEVELS * env.get_backlight_level) % 2 ^ 16

/-- Source `breathing_callback` (tp69.c, lines 144-163). -/
def breathing_callback (env : Env) (s : State) : State :=
  let breathing_period := env.get_breathing_period
  let interval := (breathing_period * 256 / BREATHING_STEPS) % 2 ^ 16
  let s := { s with
    g_breathing_counter := ((s.g_breathing_counter + 1) % (breathing_period * 256)) % 2 ^ 16 }
  let index := (s.g_breathing_counter / interval % BREATHING_STEPS) % 2 ^ 8
  let s :=
    if (s.g_breathing_halt = BREATHING_HALT_ON ∧ index = BREATHING_STEPS / 2) ∨
        (s.g_breathing_halt = BREATHING_HALT_OFF ∧ index = BREATHING_STEPS - 1) then
      breathing_interrupt_disable s
    else
      s
  let duty := cie_lightness (scale_backlight env ((table index * 256) % 2 ^ 16))
  g_backlight_channels.foldl (fun st ch => pwmEnableChannel st ch duty) s

/-- The state at power-on: the globals are zero-initialised (`callback = NULL`, halt mode
`BREATHING_NO_HALT`, counter 0) and the peripheral is idle. -/
def power_on : State :=
  { callback := Callback.NULL, notification := false, channels := fun _ => Channel.disabled,
    g_breathing_halt := BREATHING_NO_HALT, g_breathing_counter := 0 }

/-- The local variable `interval` of `breathing_callback` (tp69.c, line 147):
`(uint16_t)breathing_period * 256 / BREATHING_STEPS` stored as `uint16_t`. -/
def breathing_callback_interval (env : Env) : Nat :=
  (env.get_breathing_period * 256 / BREATHING_STEPS) % 2 ^ 16

/-- The local variable `index` of `breathing_callback` entered in state `s` (tp69.c, lines
149-150): the new counter divided by `interval`, modulo `BREATHING_STEPS`, stored as
`uint8_t`. -/
def breathing_callback_index (env : Env) (s : State) : Nat :=
  (((s.g_breathing_counter + 1) % (env.get_breathing_period * 256)) % 2 ^ 16 /
    breathing_callback_interval env % BREATHING_STEPS) % 2 ^ 8

/-- The periodic interrupt firing `n` times in a row with nothing in between: `n`
invocations of `breathing_callback`. -/
def breathing_callbacks (env : Env) : Nat → State → State
  | 0, s => s
  | n + 1, s => breathing_callback env (breathing_callbacks env n s)

/-! ## Lightness mapper: arithmetic -/

theorem cie_lightness_low (v : Nat) (h : v ≤ 5243) : cie_lightness v = v / 9 := by
  simp [cie_lightness, h]

/-- On the cubic segment the 32-bit computation never wraps: it is the clamp of
`y ^ 3 / 256` with `y = (v + 10486) * 256 / 76021`. -/
theorem cie_lightness_cubic (v : Nat) (h : 5243 < v) (hv : v ≤ 65535) :
    cie_lightness v = min 65535 (((v + 10486) * 256 / 76021) ^ 3 / 256) := by
  have hy : (v + 10486) * 256 / 76021 ≤ 256 := by omega
  have hyy : (v + 10486) * 256 / 76021 * ((v + 10486) * 256 / 76021) ≤ 256 * 256 :=
    Nat.mul_le_mul hy hy
  have hyyy : (v + 10486) * 256 / 76021 * ((v + 10486) * 256 / 76021) *
      ((v + 10486) * 256 / 76021) ≤ 256 * 256 * 256 := Nat.mul_le_mul hyy hy
  have e1 : (v + 10486) % 2 ^ 32 = v + 10486 := Nat.mod_eq_of_lt (by omega)
  have e2 : ((v + 10486) <<< 8) % 2 ^ 32 = (v + 10486) * 256 := by
    rw [Nat.shiftLeft_eq]; exact Nat.mod_eq_of_lt (by omega)
  have e3 : (10486 + 0xFFFF) % 2 ^ 32 = 76021 := by norm_num
  unfold cie_lightness
  rw [if_neg (by omega)]
  simp only [e1, e2, e3]
  generalize (v + 10486) * 256 / 76021 = y at hy hyy hyyy
  have e4 : (y * y) % 2 ^ 32 = y * y := Nat.mod_eq_of_lt (by omega)
  have e5 : (y * y * y) % 2 ^ 32 = y * y * y := Nat.mod_eq_of_lt (by omega)
  have e6 : y ^ 3 = y * y * y := by ring
  simp only [e4, e5, e6, Nat.shiftRight_eq_div_pow]
  split
  · omega
  · omega

theorem cie_lightness_mono_low (a b : Nat) (hab : a ≤ b) (hb : b ≤ 5243) :
    cie_lightness a ≤ cie_lightness b := by
  rw [cie_lightness_low a (by omega), cie_lightness_low b hb]
  exact Nat.div_le_div_right hab

theorem cie_lightness_mono_cubic (a b : Nat) (ha : 5243 < a) (hab : a ≤ b) (hb : b ≤ 65535) :
    cie_lightness a ≤ cie_lightness b := by
  rw [cie_lightness_cubic a ha (by omega), cie_lightness_cubic b (by omega) hb]
  have hy : (a + 10486) * 256 / 76021 ≤ (b + 10486) * 256 / 76021 :=
    Nat.div_le_div_right (by omega)
  have hc : ((a + 10486) * 256 / 76021) ^ 3 / 256 ≤ ((b + 10486) * 256 / 76021) ^ 3 / 256 :=
    Nat.div_le_div_right (Nat.pow_le_pow_left hy 3)
  omega

/-- Values of the cubic segment just above the breakpoint, and a floor for the rest. -/
theorem cie_lightness_above_breakpoint (b : Nat) (h : 5243 < b) (hb : b ≤ 65535) :
    (b ≤ 5252 → cie_lightness b = 549) ∧
    (5253 ≤ b → b ≤ 5549 → cie_lightness b = 581) ∧
    (5550 ≤ b → 615 ≤ cie_lightness b) := by
  rw [cie_lightness_cubic b h hb]
  refine ⟨fun h1 => ?_, fun h1 h2 => ?_, fun h1 => ?_⟩
  · have e : (b + 10486) * 256 / 76021 = 52 := by omega
    rw [e]; norm_num
  · have e : (b + 10486) * 256 / 76021 = 53 := by omega
    rw [e]; norm_num
  · have hy : 54 ≤ (b + 10486) * 256 / 76021 := by omega
    have hc : 54 ^ 3 / 256 ≤ ((b + 10486) * 256 / 76021) ^ 3 / 256 :=
      Nat.div_le_div_right (Nat.pow_le_pow_left hy 3)
    have e : 54 ^ 3 / 256 = 615 := by norm_num
    omega

/-! ## Lightness mapper: claims -/

/-- C1, as stated, fails: the inputs 5243 and 5244 are in order and in the 16-bit domain,
yet the mapper sends 5244 strictly below 5243. -/
theorem cie_lightness_order_reversed :
    (5243 : Nat) ≤ 5244 ∧ (5244 : Nat) ≤ 65535 ∧ cie_lightness 5244 < cie_lightness 5243 := by
  decide

/-- C1, amended: for a ≤ b in the 16-bit domain, `cie_lightness a ≤ cie_lightness b` holds
exactly when the pair is outside the window above the breakpoint, that is, unless
4950 ≤ a ≤ 5243 and 5244 ≤ b ≤ 5252, or 5238 ≤ a ≤ 5243 and 5253 ≤ b ≤ 5549. -/
theorem cie_lightness_monotone_outside_window (a b : Nat) (hab : a ≤ b) (hb : b ≤ 65535) :
    cie_lightness a ≤ cie_lightness b ↔
      ¬ ((4950 ≤ a ∧ a ≤ 5243 ∧ 5244 ≤ b ∧ b ≤ 5252) ∨
         (5238 ≤ a ∧ a ≤ 5243 ∧ 5253 ≤ b ∧ b ≤ 5549)) := by
  by_cases h1 : b ≤ 5243
  · have := cie_lightness_mono_low a b hab h1
    constructor
    · intro _; omega
    · intro _; exact this
  · by_cases h2 : 5243 < a
    · have := cie_lightness_mono_cubic a b h2 hab hb
      constructor
      · intro _; omega
      · intro _; exact this
    · have ea := cie_lightness_low a (by omega)
      obtain ⟨k1, k2, k3⟩ := cie_lightness_above_breakpoint b (by omega) hb
      rw [ea]
      by_cases h3 : b ≤ 5252
      · rw [k1 h3]; omega
      · by_cases h4 : b ≤ 5549
        · rw [k2 (by omega) h4]; omega
        · have := k3 (by omega)
          omega

/-- Witness of the amended C1 at a = 100, b = 60000. -/
theorem cie_lightness_monotone_outside_window_witness :
    cie_lightness 100 ≤ cie_lightness 60000 ↔
      ¬ ((4950 ≤ 100 ∧ 100 ≤ 5243 ∧ 5244 ≤ 60000 ∧ 60000 ≤ 5252) ∨
         (5238 ≤ 100 ∧ 100 ≤ 5243 ∧ 5253 ≤ 60000 ∧ 60000 ≤ 5549)) :=
  cie_lightness_monotone_outside_window 100 60000 (by decide) (by decide)

/-- C2: on the whole 16-bit domain the 32-bit computation of `cie_lightness` equals the
reference definition over unbounded integers, and neither the shifted numerator nor the
products `y * y` and `y * y * y` reach 2^32. -/
theorem cie_lightness_eq_ref (v : Nat) (hv : v ≤ 65535) :
    cie_lightness v = cie_lightness_ref v ∧
    (v + 10486) <<< 8 < 2 ^ 32 ∧
    ((v + 10486) <<< 8 / 76021) * ((v + 10486) <<< 8 / 76021) < 2 ^ 32 ∧
    ((v + 10486) <<< 8 / 76021) * ((v + 10486) <<< 8 / 76021) *
      ((v + 10486) <<< 8 / 76021) < 2 ^ 32 := by
  have hs : (v + 10486) <<< 8 = (v + 10486) * 256 := by rw [Nat.shiftLeft_eq]
  have hy : (v + 10486) * 256 / 76021 ≤ 256 := by omega
  have hyy : (v + 10486) * 256 / 76021 * ((v + 10486) * 256 / 76021) ≤ 256 * 256 :=
    Nat.mul_le_mul hy hy
  have hyyy : (v + 10486) * 256 / 76021 * ((v + 10486) * 256 / 76021) *
      ((v + 10486) * 256 / 76021) ≤ 256 * 256 * 256 := Nat.mul_le_mul hyy hy
  rw [hs]
  refine ⟨?_, by omega, by omega, by omega⟩
  by_cases h : v ≤ 5243
  · rw [cie_lightness_low v h]; simp [cie_lightness_ref, h]
  · rw [cie_lightness_cubic v (by omega) hv]; simp [cie_lightness_ref, h]

/-- Witness of C2 at v = 40000. -/
theorem cie_lightness_eq_ref_witness :
    cie_lightness 40000 = cie_lightness_ref 40000 ∧
    (40000 + 10486) <<< 8 < 2 ^ 32 ∧
    ((40000 + 10486) <<< 8 / 76021) * ((40000 + 10486) <<< 8 / 76021) < 2 ^ 32 ∧
    ((40000 + 10486) <<< 8 / 76021) * ((40000 + 10486) <<< 8 / 76021) *
      ((40000 + 10486) <<< 8 / 76021) < 2 ^ 32 :=
  cie_lightness_eq_ref 40000 (by decide)

/-- C3: the calibration values `cie_lightness 0 = 0`, `cie_lightness 5243 = 582` and
`cie_lightness 65535 = 65535`. -/
theorem cie_lightness_calibration :
    cie_lightness 0 = 0 ∧ cie_lightness 5243 = 582 ∧ cie_lightness 65535 = 65535 := by
  decide

/-- C4, as stated, fails: the distance between `cie_lightness 5244` and
`cie_lightness 5243` is not within 5 duty units. -/
theorem cie_lightness_breakpoint_step_exceeds :
    ¬ (|(cie_lightness 5244 : Int) - (cie_lightness 5243 : Int)| ≤ 5) := by
  have e1 : cie_lightness 5244 = 549 := by decide
  have e2 : cie_lightness 5243 = 582 := by decide
  rw [e1, e2]; decide

/-- C4, amended: the step at the breakpoint is a drop of 33 duty units, from
`cie_lightness 5243 = 582` down to `cie_lightness 5244 = 549`. -/
theorem cie_lightness_breakpoint_step :
    cie_lightness 5243 = 582 ∧ cie_lightness 5244 = 549 ∧
    |(cie_lightness 5244 : Int) - (cie_lightness 5243 : Int)| = 33 := by
  have e1 : cie_lightness 5244 = 549 := by decide
  have e2 : cie_lightness 5243 = 582 := by decide
  rw [e1, e2]; decide

/-! ## Waveform table: claims -/

/-- C5, as stated, fails: 63 is below 64, yet the samples at 63 and at 127 - 63 differ
(254 and 255). -/
theorem breathing_table_not_mirrored_at_127 :
    (63 : Nat) < 64 ∧ table 63 = 254 ∧ table (127 - 63) = 255 ∧
    table 63 ≠ table (127 - 63) := by
  decide

/-- C5, amended: the table is symmetric about index 64, that is, for every i with
1 ≤ i ≤ 127, `breathing_table[i] = breathing_table[128 - i]`. -/
theorem breathing_table_symmetric_about_64 (i : Nat) (h1 : 1 ≤ i) (h2 : i ≤ 127) :
    table i = table (128 - i) := by
  interval_cases i <;> rfl

/-- Witness of the amended C5 at i = 40. -/
theorem breathing_table_symmetric_about_64_witness : table 40 = table (128 - 40) :=
  breathing_table_symmetric_about_64 40 (by decide) (by decide)

/-- C6: the table has exactly 128 samples, none of them above the sample at index 64,
which is 255, and the samples at indices 0 and 127 are 0. -/
theorem breathing_table_shape :
    breathing_table.length = 128 ∧
    (∀ i, i < 128 → table i ≤ table 64) ∧
    table 64 = 255 ∧ table 0 = 0 ∧ table 127 = 0 := by
  refine ⟨rfl, ?_, rfl, rfl, rfl⟩
  intro i hi
  interval_cases i <;> decide

/-- Witness of C6 at i = 100. -/
theorem breathing_table_shape_witness : table 100 ≤ table 64 :=
  breathing_table_shape.2.1 100 (by decide)

/-! ## Static setter and breathing engine: channel loops -/

theorem enable_loop_channels (d : Nat) (s : State) :
    ∀ ch ∈ g_backlight_channels,
      (g_backlight_channels.foldl (fun st c => pwmEnableChannel st c d) s).channels ch =
        Channel.enabled d := by
  simp [g_backlight_channels, pwmEnableChannel, Function.update]

theorem disable_loop_channels (s : State) :
    ∀ ch ∈ g_backlight_channels,
      (g_backlight_channels.foldl (fun st c => pwmDisableChannel st c) s).channels ch =
        Channel.disabled := by
  simp [g_backlight_channels, pwmDisableChannel, Function.update]

theorem backlight_set_callback (env : Env) (level : Nat) (s : State) :
    (backlight_set env level s).callback = s.callback := by
  unfold backlight_set
  split
  · simp [g_backlight_channels, pwmDisableChannel]
  · split
    · simp [g_backlight_channels, pwmEnableChannel]
    · rfl

theorem backlight_set_zero_channels (env : Env) (s : State) :
    ∀ ch ∈ g_backlight_channels, (backlight_set env 0 s).channels ch = Channel.disabled := by
  intro ch hch
  simp only [backlight_set, if_true]
  exact disable_loop_channels s ch hch

/-- The duty argument of `backlight_set` neither wraps in `uint32_t` nor is cut by the
conversion to `uint16_t` when the level is a `uint8_t` value within `BACKLIGHT_LEVELS`. -/
theorem backlight_set_duty_arg (n level : Nat) (h2 : level ≤ n) (h8 : level < 256) :
    (0xFFFF * level % 2 ^ 32 / n) % 2 ^ 16 = 65535 * level / n := by
  have e1 : 0xFFFF * level % 2 ^ 32 = 65535 * level := Nat.mod_eq_of_lt (by omega)
  have e2 : 65535 * level / n ≤ 65535 :=
    Nat.div_le_of_le_mul (by rw [Nat.mul_comm n]; exact Nat.mul_le_mul_left _ h2)
  rw [e1]
  exact Nat.mod_eq_of_lt (by omega)

theorem backlight_set_on_channels (env : Env) (level : Nat) (s : State) (h1 : 1 ≤ level)
    (h2 : level ≤ env.BACKLIGHT_LEVELS) (h8 : level < 256) (hb : is_breathing s = false) :
    ∀ ch ∈ g_backlight_channels,
      (backlight_set env level s).channels ch =
        Channel.enabled (cie_lightness (65535 * level / env.BACKLIGHT_LEVELS)) := by
  intro ch hch
  have hl : ¬ level = 0 := by omega
  simp only [backlight_set, if_neg hl, hb, Bool.not_false, if_true,
    backlight_set_duty_arg env.BACKLIGHT_LEVELS level h2 h8]
  exact enable_loop_channels _ s ch hch

theorem breathing_interrupt_disable_callback (s : State) :
    (breathing_interrupt_disable s).callback = Callback.NULL := rfl

/-! ## Static setter and breathing engine: claims -/

/-- C7: for every level > 0 and every state in which the breathing engine is active,
`backlight_set` returns the state unchanged (channels, phase counter, halt mode and
active flag alike). -/
theorem backlight_set_noop_while_breathing (env : Env) (level : Nat) (s : State)
    (hl : 0 < level) (hb : is_breathing s = true) : backlight_set env level s = s := by
  have h0 : ¬ level = 0 := by omega
  simp [backlight_set, h0, hb]

/-- Witness of C7: level 2 in the state reached from power-on by `breathing_enable`. -/
theorem backlight_set_noop_while_breathing_witness :
    backlight_set ⟨3, 2, 4⟩ 2 (breathing_enable power_on) = breathing_enable power_on :=
  backlight_set_noop_while_breathing ⟨3, 2, 4⟩ 2 (breathing_enable power_on)
    (by decide) rfl

/-- C8: `backlight_set 0` disables each of the 5 backlight channels in every state; for a
`uint8_t` level with 1 ≤ level ≤ BACKLIGHT_LEVELS and an inactive engine, `backlight_set`
enables each of the 5 channels at duty `cie_lightness (65535 * level / BACKLIGHT_LEVELS)`,
which is 65535 for level = BACKLIGHT_LEVELS. -/
theorem backlight_set_writes (env : Env) (s : State) :
    (∀ ch ∈ g_backlight_channels, (backlight_set env 0 s).channels ch = Channel.disabled) ∧
    (∀ level, 1 ≤ level → level ≤ env.BACKLIGHT_LEVELS → level < 256 →
      is_breathing s = false →
      ∀ ch ∈ g_backlight_channels,
        (backlight_set env level s).channels ch =
          Channel.enabled (cie_lightness (65535 * level / env.BACKLIGHT_LEVELS))) ∧
    (1 ≤ env.BACKLIGHT_LEVELS → env.BACKLIGHT_LEVELS < 256 → is_breathing s = false →
      ∀ ch ∈ g_backlight_channels,
        (backlight_set env env.BACKLIGHT_LEVELS s).channels ch = Channel.enabled 65535) := by
  refine ⟨backlight_set_zero_channels env s, ?_, ?_⟩
  · intro level h1 h2 h8 hb
    exact backlight_set_on_channels env level s h1 h2 h8 hb
  · intro h1 h8 hb ch hch
    rw [backlight_set_on_channels env env.BACKLIGHT_LEVELS s h1 (Nat.le_refl _) h8 hb ch hch,
      Nat.mul_div_cancel _ (by omega : 0 < env.BACKLIGHT_LEVELS)]
    have e : cie_lightness 65535 = 65535 := by decide
    rw [e]

/-- Witness of C8: BACKLIGHT_LEVELS = 3 and level 2 from the power-on state. -/
theorem backlight_set_writes_witness :
    ∀ ch ∈ g_backlight_channels,
      (backlight_set ⟨3, 2, 4⟩ 2 power_on).channels ch =
        Channel.enabled (cie_lightness (65535 * 2 / 3)) :=
  (backlight_set_writes ⟨3, 2, 4⟩ power_on).2.1 2 (by decide) (by decide) (by decide) rfl

/-- C9: from every state, `breathing_enable` followed by `breathing_disable` leaves the
engine inactive and each of the 5 channels at the persisted level (disabled when it is 0,
otherwise at `cie_lightness (65535 * level / BACKLIGHT_LEVELS)`, the level being a
`uint8_t` within BACKLIGHT_LEVELS); a following `backlight_set level'` with
1 ≤ level' ≤ BACKLIGHT_LEVELS puts each of the 5 channels at
`cie_lightness (65535 * level' / BACKLIGHT_LEVELS)`. -/
theorem breathing_disable_after_enable (env : Env) (s : State) :
    is_breathing (breathing_disable env (breathing_enable s)) = false ∧
    (env.get_backlight_level = 0 →
      ∀ ch ∈ g_backlight_channels,
        (breathing_disable env (breathing_enable s)).channels ch = Channel.disabled) ∧
    (1 ≤ env.get_backlight_level → env.get_backlight_level ≤ env.BACKLIGHT_LEVELS →
      env.get_backlight_level < 256 →
      ∀ ch ∈ g_backlight_channels,
        (breathing_disable env (breathing_enable s)).channels ch =
          Channel.enabled
            (cie_lightness (65535 * env.get_backlight_level / env.BACKLIGHT_LEVELS))) ∧
    (∀ level', 1 ≤ level' → level' ≤ env.BACKLIGHT_LEVELS → level' < 256 →
      ∀ ch ∈ g_backlight_channels,
        (backlight_set env level' (breathing_disable env (breathing_enable s))).channels ch =
          Channel.enabled (cie_lightness (65535 * level' / env.BACKLIGHT_LEVELS))) := by
  have hcb : (breathing_disable env (breathing_enable s)).callback = Callback.NULL := by
    unfold breathing_disable
    rw [backlight_set_callback, breathing_interrupt_disable_callback]
  have hoff : is_breathing (breathing_disable env (breathing_enable s)) = false := by
    simp [is_breathing, hcb]
  have hoff0 : is_breathing (breathing_interrupt_disable (breathing_enable s)) = false := by
    simp [is_breathing, breathing_interrupt_disable_callback]
  refine ⟨hoff, ?_, ?_, ?_⟩
  · intro h0
    unfold breathing_disable
    rw [h0]
    exact backlight_set_zero_channels env _
  · intro h1 h2 h8
    unfold breathing_disable
    exact backlight_set_on_channels env _ _ h1 h2 h8 hoff0
  · intro level' h1 h2 h8
    exact backlight_set_on_channels env level' _ h1 h2 h8 hoff

/-- Witness of C9: BACKLIGHT_LEVELS = 3, persisted level 2, then `backlight_set 1`. -/
theorem breathing_disable_after_enable_witness :
    (∀ ch ∈ g_backlight_channels,
      (breathing_disable ⟨3, 2, 4⟩ (breathing_enable power_on)).channels ch =
        Channel.enabled (cie_lightness (65535 * 2 / 3))) ∧
    (∀ ch ∈ g_backlight_channels,
      (backlight_set ⟨3, 2, 4⟩ 1
        (breathing_disable ⟨3, 2, 4⟩ (breathing_enable power_on))).channels ch =
        Channel.enabled (cie_lightness (65535 * 1 / 3))) :=
  ⟨(breathing_disable_after_enable ⟨3, 2, 4⟩ power_on).2.2.1
      (by decide) (by decide) (by decide),
   (breathing_disable_after_enable ⟨3, 2, 4⟩ power_on).2.2.2 1
      (by decide) (by decide) (by decide)⟩

/-- C10: from every state `breathing_enable` yields phase counter 0, halt mode
`BREATHING_NO_HALT` and an active engine, and calling it twice gives the same state as
calling it once. -/
theorem breathing_enable_idempotent (s : State) :
    (breathing_enable s).g_breathing_counter = 0 ∧
    (breathing_enable s).g_breathing_halt = BREATHING_NO_HALT ∧
    is_breathing (breathing_enable s) = true ∧
    breathing_enable (breathing_enable s) = breathing_enable s :=
  ⟨rfl, rfl, rfl, rfl⟩

/-! ## Breathing engine: one callback -/

theorem enable_loop_callback (d : Nat) (s : State) :
    (g_backlight_channels.foldl (fun st c => pwmEnableChannel st c d) s).callback =
      s.callback := rfl

theorem enable_loop_halt (d : Nat) (s : State) :
    (g_backlight_channels.foldl (fun st c => pwmEnableChannel st c d) s).g_breathing_halt =
      s.g_breathing_halt := rfl

theorem enable_loop_counter (d : Nat) (s : State) :
    (g_backlight_channels.foldl (fun st c => pwmEnableChannel st c d) s).g_breathing_counter =
      s.g_breathing_counter := rfl

/-- The counter written by one callback (line 149). -/
theorem breathing_callback_counter (env : Env) (s : State) :
    (breathing_callback env s).g_breathing_counter =
      ((s.g_breathing_counter + 1) % (env.get_breathing_period * 256)) % 2 ^ 16 := by
  unfold breathing_callback
  simp only [enable_loop_counter]
  split <;> rfl

/-- The callback never writes the halt mode. -/
theorem breathing_callback_halt (env : Env) (s : State) :
    (breathing_callback env s).g_breathing_halt = s.g_breathing_halt := by
  unfold breathing_callback
  simp only [enable_loop_halt]
  split <;> rfl

/-- The callback hook after one callback (lines 152-154), in terms of the local `index`. -/
theorem breathing_callback_callback (env : Env) (s : State) :
    (breathing_callback env s).callback =
      if (s.g_breathing_halt = BREATHING_HALT_ON ∧
            breathing_callback_index env s = BREATHING_STEPS / 2) ∨
          (s.g_breathing_halt = BREATHING_HALT_OFF ∧
            breathing_callback_index env s = BREATHING_STEPS - 1) then
        Callback.NULL
      else
        s.callback := by
  unfold breathing_callback
  simp only [enable_loop_callback]
  unfold breathing_callback_index breathing_callback_interval
  split <;> rfl

/-- The duty written by one callback (lines 156-162), in terms of the local `index`. -/
theorem breathing_callback_channels (env : Env) (s : State) :
    ∀ ch ∈ g_backlight_channels,
      (breathing_callback env s).channels ch =
        Channel.enabled (cie_lightness (scale_backlight env
          ((table (breathing_callback_index env s) * 256) % 2 ^ 16))) := by
  intro ch hch
  unfold breathing_callback
  exact enable_loop_channels _ _ ch hch

/-! ## Breathing engine: phase arithmetic for a period in [1, 255] -/

theorem breathing_callback_interval_eq (env : Env) (h1 : 1 ≤ env.get_breathing_period)
    (h2 : env.get_breathing_period ≤ 255) :
    breathing_callback_interval env = 2 * env.get_breathing_period := by
  unfold breathing_callback_interval BREATHING_STEPS
  omega

theorem breathing_callback_counter_eq (env : Env) (s : State)
    (h1 : 1 ≤ env.get_breathing_period) (h2 : env.get_breathing_period ≤ 255) :
    (breathing_callback env s).g_breathing_counter =
        (s.g_breathing_counter + 1) % (env.get_breathing_period * 256) ∧
    (breathing_callback env s).g_breathing_counter < env.get_breathing_period * 256 := by
  have hlt : (s.g_breathing_counter + 1) % (env.get_breathing_period * 256) <
      env.get_breathing_period * 256 := Nat.mod_lt _ (by omega)
  rw [breathing_callback_counter]
  have e : ((s.g_breathing_counter + 1) % (env.get_breathing_period * 256)) % 2 ^ 16 =
      (s.g_breathing_counter + 1) % (env.get_breathing_period * 256) :=
    Nat.mod_eq_of_lt (by omega)
  rw [e]
  exact ⟨rfl, hlt⟩

theorem breathing_callback_index_eq (env : Env) (s : State)
    (h1 : 1 ≤ env.get_breathing_period) (h2 : env.get_breathing_period ≤ 255) :
    breathing_callback_index env s =
        (s.g_breathing_counter + 1) % (env.get_breathing_period * 256) /
          (2 * env.get_breathing_period) ∧
    breathing_callback_index env s < 128 := by
  have hlt : (s.g_breathing_counter + 1) % (env.get_breathing_period * 256) <
      env.get_breathing_period * 256 := Nat.mod_lt _ (by omega)
  have e : ((s.g_breathing_counter + 1) % (env.get_breathing_period * 256)) % 2 ^ 16 =
      (s.g_breathing_counter + 1) % (env.get_breathing_period * 256) :=
    Nat.mod_eq_of_lt (by omega)
  have hq : (s.g_breathing_counter + 1) % (env.get_breathing_period * 256) /
      (2 * env.get_breathing_period) < 128 :=
    (Nat.div_lt_iff_lt_mul (by omega)).2 (by omega)
  have e7 : (s.g_breathing_counter + 1) % (env.get_breathing_period * 256) /
      (2 * env.get_breathing_period) % 128 =
      (s.g_breathing_counter + 1) % (env.get_breathing_period * 256) /
        (2 * env.get_breathing_period) := Nat.mod_eq_of_lt hq
  have e8 : ((s.g_breathing_counter + 1) % (env.get_breathing_period * 256) /
      (2 * env.get_breathing_period)) % 2 ^ 8 =
      (s.g_breathing_counter + 1) % (env.get_breathing_period * 256) /
        (2 * env.get_breathing_period) := Nat.mod_eq_of_lt (by omega)
  unfold breathing_callback_index
  rw [breathing_callback_interval_eq env h1 h2, e]
  unfold BREATHING_STEPS
  rw [e7, e8]
  exact ⟨rfl, hq⟩

/-! ## Breathing engine: runs of callbacks -/

theorem breathing_callbacks_halt (env : Env) (n : Nat) (s : State) :
    (breathing_callbacks env n s).g_breathing_halt = s.g_breathing_halt := by
  induction n with
  | zero => rfl
  | succ k ih =>
    show (breathing_callback env (breathing_callbacks env k s)).g_breathing_halt = _
    rw [breathing_callback_halt, ih]

theorem breathing_callbacks_counter (env : Env) (n : Nat) (s : State)
    (h1 : 1 ≤ env.get_breathing_period) (h2 : env.get_breathing_period ≤ 255) :
    (breathing_callbacks env (n + 1) s).g_breathing_counter =
      (s.g_breathing_counter + (n + 1)) % (env.get_breathing_period * 256) := by
  induction n with
  | zero =>
    show (breathing_callback env s).g_breathing_counter = _
    exact (breathing_callback_counter_eq env s h1 h2).1
  | succ k ih =>
    show (breathing_callback env (breathing_callbacks env (k + 1) s)).g_breathing_counter = _
    rw [(breathing_callback_counter_eq env _ h1 h2).1, ih, Nat.mod_add_mod]
    rfl

/-- The index computed by the callback that follows `n` earlier ones. -/
theorem breathing_callbacks_index (env : Env) (n : Nat) (s : State)
    (h1 : 1 ≤ env.get_breathing_period) (h2 : env.get_breathing_period ≤ 255) :
    breathing_callback_index env (breathing_callbacks env n s) =
      (s.g_breathing_counter + (n + 1)) % (env.get_breathing_period * 256) /
        (2 * env.get_breathing_period) := by
  rw [(breathing_callback_index_eq env _ h1 h2).1]
  cases n with
  | zero => rfl
  | succ k =>
    rw [breathing_callbacks_counter env k s h1 h2, Nat.mod_add_mod]
    rfl

/-- A run of callbacks none of which meets the halt condition leaves the hook as it was. -/
theorem breathing_callbacks_callback_kept (env : Env) (n : Nat) (s : State)
    (h : ∀ j, j < n →
      ¬ ((s.g_breathing_halt = BREATHING_HALT_ON ∧
            breathing_callback_index env (breathing_callbacks env j s) = 64) ∨
         (s.g_breathing_halt = BREATHING_HALT_OFF ∧
            breathing_callback_index env (breathing_callbacks env j s) = 127))) :
    (breathing_callbacks env n s).callback = s.callback := by
  induction n with
  | zero => rfl
  | succ k ih =>
    show (breathing_callback env (breathing_callbacks env k s)).callback = _
    rw [breathing_callback_callback, breathing_callbacks_halt]
    have hk := h k (Nat.lt_succ_self k)
    have hk2 : ¬ ((s.g_breathing_halt = BREATHING_HALT_ON ∧
            breathing_callback_index env (breathing_callbacks env k s) =
              BREATHING_STEPS / 2) ∨
         (s.g_breathing_halt = BREATHING_HALT_OFF ∧
            breathing_callback_index env (breathing_callbacks env k s) =
              BREATHING_STEPS - 1)) := hk
    rw [if_neg hk2]
    exact ih (fun j hj => h j (Nat.lt_succ_of_lt hj))

/-- A callback that meets the halt condition clears the hook. -/
theorem breathing_callbacks_callback_cleared (env : Env) (n : Nat) (s : State)
    (h : (s.g_breathing_halt = BREATHING_HALT_ON ∧
            breathing_callback_index env (breathing_callbacks env n s) = 64) ∨
         (s.g_breathing_halt = BREATHING_HALT_OFF ∧
            breathing_callback_index env (breathing_callbacks env n s) = 127)) :
    (breathing_callbacks env (n + 1) s).callback = Callback.NULL := by
  show (breathing_callback env (breathing_callbacks env n s)).callback = _
  rw [breathing_callback_callback, breathing_callbacks_halt]
  have h2 : (s.g_breathing_halt = BREATHING_HALT_ON ∧
            breathing_callback_index env (breathing_callbacks env n s) =
              BREATHING_STEPS / 2) ∨
         (s.g_breathing_halt = BREATHING_HALT_OFF ∧
            breathing_callback_index env (breathing_callbacks env n s) =
              BREATHING_STEPS - 1) := h
  rw [if_pos h2]

theorem breathing_pulse_fields (env : Env) (s : State) :
    (breathing_pulse env s).g_breathing_counter =
      (if env.get_backlight_level = 0 then 0
        else (env.get_breathing_period * 256 / 2) % 2 ^ 16) ∧
    (breathing_pulse env s).g_breathing_halt = BREATHING_HALT_ON ∧
    (breathing_pulse env s).callback = Callback.breathing_callback := by
  unfold breathing_pulse
  by_cases h : env.get_backlight_level = 0
  · simp only [h, if_true]
    exact ⟨rfl, rfl, rfl⟩
  · simp only [h, if_false]
    exact ⟨rfl, rfl, rfl⟩

theorem is_breathing_iff (s : State) :
    is_breathing s = true ↔ s.callback = Callback.breathing_callback := by
  unfold is_breathing
  cases s.callback <;> decide

/-- Within one period of callbacks every phase value is reached: some callback among the
next `m` brings a counter running modulo `m` to the value `tc`. -/
theorem exists_phase_offset (m c tc : Nat) (htc : tc < m) :
    ∃ j, j < m ∧ (c + (j + 1)) % m = tc := by
  have hc0 : c % m < m := Nat.mod_lt _ (by omega)
  have hdiv : m * (c / m) + c % m = c := Nat.div_add_mod c m
  by_cases h : c % m < tc
  · refine ⟨tc - c % m - 1, by omega, ?_⟩
    have e : c + (tc - c % m - 1 + 1) = m * (c / m) + tc := by omega
    rw [e, Nat.mul_add_mod, Nat.mod_eq_of_lt htc]
  · refine ⟨tc + m - c % m - 1, by omega, ?_⟩
    have e : c + (tc + m - c % m - 1 + 1) = m * (c / m + 1) + tc := by
      rw [Nat.mul_add, Nat.mul_one]; omega
    rw [e, Nat.mul_add_mod, Nat.mod_eq_of_lt htc]

/-- The first callback whose index is the halt target `t` deactivates an active engine, and
it comes within one period. -/
theorem breathing_halts_at_first_target (env : Env) (s : State)
    (h1 : 1 ≤ env.get_breathing_period) (h2 : env.get_breathing_period ≤ 255)
    (ha : is_breathing s = true) (t : Nat) (ht : t < 128)
    (hcond : ∀ i, ((s.g_breathing_halt = BREATHING_HALT_ON ∧ i = 64) ∨
        (s.g_breathing_halt = BREATHING_HALT_OFF ∧ i = 127)) ↔ i = t) :
    ∃ n, 1 ≤ n ∧ n ≤ env.get_breathing_period * 256 ∧
      (∀ k, k < n → is_breathing (breathing_callbacks env k s) = true) ∧
      is_breathing (breathing_callbacks env n s) = false ∧
      breathing_callback_index env (breathing_callbacks env (n - 1) s) = t ∧
      (∀ k, k < n - 1 → breathing_callback_index env (breathing_callbacks env k s) ≠ t) := by
  have htc : t * (2 * env.get_breathing_period) ≤ 127 * (2 * env.get_breathing_period) :=
    Nat.mul_le_mul_right _ (by omega)
  obtain ⟨j0, hj0, hmod⟩ := exists_phase_offset (env.get_breathing_period * 256)
    s.g_breathing_counter (t * (2 * env.get_breathing_period)) (by omega)
  have hex : ∃ j, breathing_callback_index env (breathing_callbacks env j s) = t := by
    refine ⟨j0, ?_⟩
    rw [breathing_callbacks_index env j0 s h1 h2, hmod]
    exact Nat.mul_div_cancel _ (by omega)
  have hspec := Nat.find_spec hex
  have hle : Nat.find hex ≤ j0 := Nat.find_min' hex (by
    rw [breathing_callbacks_index env j0 s h1 h2, hmod]
    exact Nat.mul_div_cancel _ (by omega))
  have hmin : ∀ k, k < Nat.find hex →
      breathing_callback_index env (breathing_callbacks env k s) ≠ t :=
    fun k hk => Nat.find_min hex hk
  refine ⟨Nat.find hex + 1, by omega, by omega, ?_, ?_, hspec, hmin⟩
  · intro k hk
    have hkeep : (breathing_callbacks env k s).callback = s.callback := by
      apply breathing_callbacks_callback_kept
      intro j hj hc
      exact hmin j (by omega) ((hcond _).1 hc)
    rw [is_breathing_iff, hkeep, ← is_breathing_iff]
    exact ha
  · have hnull : (breathing_callbacks env (Nat.find hex + 1) s).callback = Callback.NULL :=
      breathing_callbacks_callback_cleared env _ s ((hcond _).2 hspec)
    simp [is_breathing, hnull]

theorem table_le_255 (i : Nat) (h : i < 128) : table i ≤ 255 := by
  interval_cases i <;> decide

theorem breathing_callback_index_lt (env : Env) (s : State) :
    breathing_callback_index env s < 128 := by
  unfold breathing_callback_index BREATHING_STEPS
  omega

/-! ## Breathing engine: claims -/

/-- C11: for a period P in [1, 255] and persisted level 0, `breathing_pulse` sets the phase
counter to 0, the halt mode to `BREATHING_HALT_ON` and activates the engine; the engine is
active after each of the first 128 * P - 1 callbacks, whose indices are k / (2 * P) for the
k-th, from 0 at the first to 63 at the last; the 128 * P-th callback has index 64 and
deactivates the engine. -/
theorem breathing_pulse_from_off (env : Env) (s : State)
    (h1 : 1 ≤ env.get_breathing_period) (h2 : env.get_breathing_period ≤ 255)
    (h0 : env.get_backlight_level = 0) :
    (breathing_pulse env s).g_breathing_counter = 0 ∧
    (breathing_pulse env s).g_breathing_halt = BREATHING_HALT_ON ∧
    is_breathing (breathing_pulse env s) = true ∧
    (∀ k, k < 128 * env.get_breathing_period →
      is_breathing (breathing_callbacks env k (breathing_pulse env s)) = true) ∧
    (∀ k, 1 ≤ k → k < 128 * env.get_breathing_period →
      breathing_callback_index env (breathing_callbacks env (k - 1) (breathing_pulse env s)) =
        k / (2 * env.get_breathing_period) ∧
      k / (2 * env.get_breathing_period) ≤ 63) ∧
    breathing_callback_index env (breathing_callbacks env 0 (breathing_pulse env s)) = 0 ∧
    breathing_callback_index env
      (breathing_callbacks env (128 * env.get_breathing_period - 2)
        (breathing_pulse env s)) = 63 ∧
    breathing_callback_index env
      (breathing_callbacks env (128 * env.get_breathing_period - 1)
        (breathing_pulse env s)) = 64 ∧
    is_breathing
      (breathing_callbacks env (128 * env.get_breathing_period) (breathing_pulse env s)) =
        false := by
  obtain ⟨hc, hh, hcb⟩ := breathing_pulse_fields env s
  rw [if_pos h0] at hc
  have hidx : ∀ j, j < 128 * env.get_breathing_period →
      breathing_callback_index env (breathing_callbacks env j (breathing_pulse env s)) =
        (j + 1) / (2 * env.get_breathing_period) := by
    intro j hj
    rw [breathing_callbacks_index env j _ h1 h2, hc, Nat.zero_add,
      Nat.mod_eq_of_lt (by omega)]
  have hlow : ∀ k, k < 128 * env.get_breathing_period →
      k / (2 * env.get_breathing_period) ≤ 63 := by
    intro k hk
    have : k / (2 * env.get_breathing_period) < 64 :=
      (Nat.div_lt_iff_lt_mul (by omega)).2 (by omega)
    omega
  have h64 : 128 * env.get_breathing_period / (2 * env.get_breathing_period) = 64 :=
    Nat.div_eq_of_lt_le (by omega) (by omega)
  have hlast : breathing_callback_index env
      (breathing_callbacks env (128 * env.get_breathing_period - 1)
        (breathing_pulse env s)) = 64 := by
    rw [hidx _ (by omega)]
    have e : 128 * env.get_breathing_period - 1 + 1 = 128 * env.get_breathing_period := by
      omega
    rw [e, h64]
  refine ⟨hc, hh, (is_breathing_iff _).2 hcb, ?_, ?_, ?_, ?_, hlast, ?_⟩
  · intro k hk
    rw [is_breathing_iff, ← hcb]
    apply breathing_callbacks_callback_kept
    intro j hj
    rw [hh, hidx j (by omega)]
    have := hlow (j + 1) (by omega)
    unfold BREATHING_HALT_ON BREATHING_HALT_OFF
    omega
  · intro k hk1 hk
    have e : k - 1 + 1 = k := by omega
    rw [hidx (k - 1) (by omega), e]
    exact ⟨rfl, hlow k hk⟩
  · rw [hidx 0 (by omega)]
    exact Nat.div_eq_of_lt (by omega)
  · rw [hidx _ (by omega)]
    exact Nat.div_eq_of_lt_le (by omega) (by omega)
  · have e : 128 * env.get_breathing_period = 128 * env.get_breathing_period - 1 + 1 := by
      omega
    have hnull : (breathing_callbacks env (128 * env.get_breathing_period - 1 + 1)
        (breathing_pulse env s)).callback = Callback.NULL :=
      breathing_callbacks_callback_cleared env _ _ (Or.inl ⟨hh, hlast⟩)
    rw [← e] at hnull
    simp [is_breathing, hnull]

/-- Witness of C11: period 1, persisted level 0, from the power-on state. -/
theorem breathing_pulse_from_off_witness :
    is_breathing (breathing_callbacks ⟨3, 0, 1⟩ 127 (breathing_pulse ⟨3, 0, 1⟩ power_on)) =
      true ∧
    is_breathing (breathing_callbacks ⟨3, 0, 1⟩ 128 (breathing_pulse ⟨3, 0, 1⟩ power_on)) =
      false :=
  ⟨(breathing_pulse_from_off ⟨3, 0, 1⟩ power_on (by decide) (by decide) rfl).2.2.2.1 127
      (by decide),
   (breathing_pulse_from_off ⟨3, 0, 1⟩ power_on (by decide) (by decide) rfl).2.2.2.2.2.2.2.2⟩

/-- C12, what the code does: for a period P in [1, 255] and a non-zero persisted level,
`breathing_pulse` sets the phase counter to 128 * P with halt mode `BREATHING_HALT_ON`, and
the very first callback already computes index 64 and deactivates the engine: the index
never leaves 64 and no pulse is produced. -/
theorem breathing_pulse_from_on_stops_at_once (env : Env) (s : State)
    (h1 : 1 ≤ env.get_breathing_period) (h2 : env.get_breathing_period ≤ 255)
    (hl : env.get_backlight_level ≠ 0) :
    (breathing_pulse env s).g_breathing_counter = 128 * env.get_breathing_period ∧
    (breathing_pulse env s).g_breathing_halt = BREATHING_HALT_ON ∧
    is_breathing (breathing_pulse env s) = true ∧
    breathing_callback_index env (breathing_pulse env s) = 64 ∧
    is_breathing (breathing_callback env (breathing_pulse env s)) = false := by
  obtain ⟨hc, hh, hcb⟩ := breathing_pulse_fields env s
  rw [if_neg hl] at hc
  have hc2 : (breathing_pulse env s).g_breathing_counter = 128 * env.get_breathing_period := by
    rw [hc]; omega
  have hidx : breathing_callback_index env (breathing_pulse env s) = 64 := by
    rw [(breathing_callback_index_eq env _ h1 h2).1, hc2, Nat.mod_eq_of_lt (by omega)]
    exact Nat.div_eq_of_lt_le (by omega) (by omega)
  have hnull : (breathing_callbacks env (0 + 1) (breathing_pulse env s)).callback =
      Callback.NULL :=
    breathing_callbacks_callback_cleared env 0 _ (Or.inl ⟨hh, hidx⟩)
  have hnull2 : (breathing_callback env (breathing_pulse env s)).callback = Callback.NULL :=
    hnull
  refine ⟨hc2, hh, (is_breathing_iff _).2 hcb, hidx, ?_⟩
  simp [is_breathing, hnull2]

/-- Witness of C12's evaluation: period 4, persisted level 2, from the power-on state. -/
theorem breathing_pulse_from_on_stops_at_once_witness :
    (breathing_pulse ⟨3, 2, 4⟩ power_on).g_breathing_counter = 128 * 4 ∧
    is_breathing (breathing_callback ⟨3, 2, 4⟩ (breathing_pulse ⟨3, 2, 4⟩ power_on)) = false :=
  ⟨(breathing_pulse_from_on_stops_at_once ⟨3, 2, 4⟩ power_on (by decide) (by decide)
      (by decide)).1,
   (breathing_pulse_from_on_stops_at_once ⟨3, 2, 4⟩ power_on (by decide) (by decide)
      (by decide)).2.2.2.2⟩

/-- C13: for a period P in [1, 255] and a phase counter c < P * 256, after exactly P * 256
invocations of `breathing_callback` the phase counter is c again. -/
theorem breathing_counter_wraps (env : Env) (s : State)
    (h1 : 1 ≤ env.get_breathing_period) (h2 : env.get_breathing_period ≤ 255)
    (hc : s.g_breathing_counter < env.get_breathing_period * 256) :
    (breathing_callbacks env (env.get_breathing_period * 256) s).g_breathing_counter =
      s.g_breathing_counter := by
  have e : env.get_breathing_period * 256 = env.get_breathing_period * 256 - 1 + 1 := by
    omega
  have h := breathing_callbacks_counter env (env.get_breathing_period * 256 - 1) s h1 h2
  rw [← e, Nat.add_mod_right, Nat.mod_eq_of_lt hc] at h
  exact h

/-- Witness of C13: period 2 and counter 300. -/
theorem breathing_counter_wraps_witness :
    (breathing_callbacks ⟨3, 2, 2⟩ (2 * 256)
      { power_on with g_breathing_counter := 300 }).g_breathing_counter = 300 :=
  breathing_counter_wraps ⟨3, 2, 2⟩ { power_on with g_breathing_counter := 300 }
    (by decide) (by decide) (by decide)

/-- C14: `breathing_self_disable` sets the halt mode to `BREATHING_HALT_OFF` when the
persisted level is 0 and to `BREATHING_HALT_ON` otherwise, and leaves the callback hook (the
active flag), the phase counter, the periodic notification and all channels unchanged. -/
theorem breathing_self_disable_frame (env : Env) (s : State) :
    (env.get_backlight_level = 0 →
      (breathing_self_disable env s).g_breathing_halt = BREATHING_HALT_OFF) ∧
    (env.get_backlight_level ≠ 0 →
      (breathing_self_disable env s).g_breathing_halt = BREATHING_HALT_ON) ∧
    (breathing_self_disable env s).callback = s.callback ∧
    is_breathing (breathing_self_disable env s) = is_breathing s ∧
    (breathing_self_disable env s).g_breathing_counter = s.g_breathing_counter ∧
    (breathing_self_disable env s).notification = s.notification ∧
    (breathing_self_disable env s).channels = s.channels := by
  by_cases h : env.get_backlight_level = 0
  · have e : breathing_self_disable env s =
        { s with g_breathing_halt := BREATHING_HALT_OFF } := by
      unfold breathing_self_disable
      rw [if_pos h]
    rw [e]
    exact ⟨fun _ => rfl, fun hne => absurd h hne, rfl, rfl, rfl, rfl, rfl⟩
  · have e : breathing_self_disable env s =
        { s with g_breathing_halt := BREATHING_HALT_ON } := by
      unfold breathing_self_disable
      rw [if_neg h]
    rw [e]
    exact ⟨fun h0 => absurd h0 h, fun _ => rfl, rfl, rfl, rfl, rfl, rfl⟩

/-- Witness of C14: persisted level 0 while the engine runs. -/
theorem breathing_self_disable_frame_witness :
    (breathing_self_disable ⟨3, 0, 4⟩ (breathing_enable power_on)).g_breathing_halt =
      BREATHING_HALT_OFF :=
  (breathing_self_disable_frame ⟨3, 0, 4⟩ (breathing_enable power_on)).1 rfl

/-- C15: one callback with a period P in [1, 255]: the new counter is
(old counter + 1) mod (P * 256); the interval is P * 256 / 128 = 2 * P and the index is
(new counter / interval) mod 128; the engine is deactivated when the halt mode is
`BREATHING_HALT_ON` and the index 64, or the halt mode `BREATHING_HALT_OFF` and the index
127, and only then (otherwise the callback hook is unchanged); the halt mode is unchanged. -/
theorem breathing_callback_step (env : Env) (s : State)
    (h1 : 1 ≤ env.get_breathing_period) (h2 : env.get_breathing_period ≤ 255) :
    (breathing_callback env s).g_breathing_counter =
      (s.g_breathing_counter + 1) % (env.get_breathing_period * 256) ∧
    breathing_callback_interval env = env.get_breathing_period * 256 / 128 ∧
    breathing_callback_interval env = 2 * env.get_breathing_period ∧
    breathing_callback_index env s =
      (breathing_callback env s).g_breathing_counter / breathing_callback_interval env % 128 ∧
    (((s.g_breathing_halt = BREATHING_HALT_ON ∧ breathing_callback_index env s = 64) ∨
        (s.g_breathing_halt = BREATHING_HALT_OFF ∧ breathing_callback_index env s = 127)) →
      is_breathing (breathing_callback env s) = false) ∧
    (¬ ((s.g_breathing_halt = BREATHING_HALT_ON ∧ breathing_callback_index env s = 64) ∨
        (s.g_breathing_halt = BREATHING_HALT_OFF ∧ breathing_callback_index env s = 127)) →
      (breathing_callback env s).callback = s.callback ∧
      is_breathing (breathing_callback env s) = is_breathing s) ∧
    (is_breathing s = true →
      (is_breathing (breathing_callback env s) = false ↔
        ((s.g_breathing_halt = BREATHING_HALT_ON ∧ breathing_callback_index env s = 64) ∨
         (s.g_breathing_halt = BREATHING_HALT_OFF ∧
           breathing_callback_index env s = 127)))) ∧
    (breathing_callback env s).g_breathing_halt = s.g_breathing_halt := by
  have hcnt := (breathing_callback_counter_eq env s h1 h2).1
  have hint := breathing_callback_interval_eq env h1 h2
  obtain ⟨hidx, hlt⟩ := breathing_callback_index_eq env s h1 h2
  have hpos : ((s.g_breathing_halt = BREATHING_HALT_ON ∧ breathing_callback_index env s = 64) ∨
      (s.g_breathing_halt = BREATHING_HALT_OFF ∧ breathing_callback_index env s = 127)) →
      is_breathing (breathing_callback env s) = false := by
    intro hc
    have hnull : (breathing_callbacks env (0 + 1) s).callback = Callback.NULL :=
      breathing_callbacks_callback_cleared env 0 s hc
    have hnull2 : (breathing_callback env s).callback = Callback.NULL := hnull
    simp [is_breathing, hnull2]
  have hneg : ¬ ((s.g_breathing_halt = BREATHING_HALT_ON ∧
        breathing_callback_index env s = 64) ∨
      (s.g_breathing_halt = BREATHING_HALT_OFF ∧ breathing_callback_index env s = 127)) →
      (breathing_callback env s).callback = s.callback := by
    intro hc
    have hk : (breathing_callbacks env (0 + 1) s).callback = s.callback :=
      breathing_callbacks_callback_kept env 1 s (fun j hj => by
        have e : j = 0 := by omega
        subst e
        exact hc)
    exact hk
  refine ⟨hcnt, by rw [hint]; omega, hint, ?_, hpos, ?_, ?_,
    breathing_callback_halt env s⟩
  · rw [hcnt, hint, ← hidx, Nat.mod_eq_of_lt hlt]
  · intro hc
    have e := hneg hc
    exact ⟨e, by unfold is_breathing; rw [e]⟩
  · intro ha
    constructor
    · intro hoff
      by_contra hc
      have e := hneg hc
      have : is_breathing (breathing_callback env s) = is_breathing s := by
        unfold is_breathing; rw [e]
      rw [this, ha] at hoff
      exact Bool.noConfusion hoff
    · exact hpos

/-- Witness of C15: period 1, counter 127 and halt mode `BREATHING_HALT_ON`; the callback
moves the counter to 128, which is index 64. -/
theorem breathing_callback_step_witness :
    (breathing_callback ⟨3, 3, 1⟩
      { breathing_enable power_on with
        g_breathing_counter := 127, g_breathing_halt := BREATHING_HALT_ON }).g_breathing_counter
      = (127 + 1) % (1 * 256) :=
  (breathing_callback_step ⟨3, 3, 1⟩
    { breathing_enable power_on with
      g_breathing_counter := 127, g_breathing_halt := BREATHING_HALT_ON }
    (by decide) (by decide)).1

/-- C16, as stated, fails: with BACKLIGHT_LEVELS = 3, level 3, period 1 and counter 127
the callback computes index 64, whose sample is 255; the claim's duty
`cie_lightness (255 / 3 * 3)` is 28, but the callback writes 64770 to the first backlight
channel. -/
theorem breathing_callback_duty_not_of_raw_sample :
    breathing_callback_index ⟨3, 3, 1⟩ { power_on with g_breathing_counter := 127 } = 64 ∧
    table 64 = 255 ∧
    cie_lightness (table 64 / 3 * 3) = 28 ∧
    (breathing_callback ⟨3, 3, 1⟩ { power_on with g_breathing_counter := 127 }).channels 1 =
      Channel.enabled 64770 ∧
    (breathing_callback ⟨3, 3, 1⟩ { power_on with g_breathing_counter := 127 }).channels 1 ≠
      Channel.enabled (cie_lightness (table 64 / 3 * 3)) := by
  have e1 : breathing_callback_index ⟨3, 3, 1⟩
      { power_on with g_breathing_counter := 127 } = 64 := by decide
  have e2 : table 64 = 255 := rfl
  have e3 : cie_lightness (255 / 3 * 3) = 28 := by decide
  have e4 : (breathing_callback ⟨3, 3, 1⟩
      { power_on with g_breathing_counter := 127 }).channels 1 = Channel.enabled 64770 := by
    rw [breathing_callback_channels ⟨3, 3, 1⟩ _ 1 (by decide), e1, e2]
    decide
  refine ⟨e1, e2, by rw [e2]; exact e3, e4, ?_⟩
  rw [e4, e2, e3]
  decide

/-- C16, amended: in every invocation of `breathing_callback`, the deactivating one
included, the duty written to each of the 5 channels is
`cie_lightness (scale_backlight (breathing_table[index] * 256))`: the argument of the
scaling is the sample times 256, and `scale_backlight x` is `x / BACKLIGHT_LEVELS * level`
as a `uint16_t`, which is the plain product when level ≤ BACKLIGHT_LEVELS. -/
theorem breathing_callback_duty (env : Env) (s : State) :
    (∀ ch ∈ g_backlight_channels,
      (breathing_callback env s).channels ch =
        Channel.enabled (cie_lightness (scale_backlight env
          (table (breathing_callback_index env s) * 256)))) ∧
    scale_backlight env (table (breathing_callback_index env s) * 256) =
      (table (breathing_callback_index env s) * 256 / env.BACKLIGHT_LEVELS *
        env.get_backlight_level) % 2 ^ 16 ∧
    (env.get_backlight_level ≤ env.BACKLIGHT_LEVELS →
      scale_backlight env (table (breathing_callback_index env s) * 256) =
        table (breathing_callback_index env s) * 256 / env.BACKLIGHT_LEVELS *
          env.get_backlight_level) := by
  have ht := table_le_255 _ (breathing_callback_index_lt env s)
  have e : (table (breathing_callback_index env s) * 256) % 2 ^ 16 =
      table (breathing_callback_index env s) * 256 := Nat.mod_eq_of_lt (by omega)
  refine ⟨?_, rfl, ?_⟩
  · intro ch hch
    rw [breathing_callback_channels env s ch hch, e]
  · intro hl
    unfold scale_backlight
    apply Nat.mod_eq_of_lt
    have a1 : table (breathing_callback_index env s) * 256 / env.BACKLIGHT_LEVELS *
        env.get_backlight_level ≤
        table (breathing_callback_index env s) * 256 / env.BACKLIGHT_LEVELS *
          env.BACKLIGHT_LEVELS := Nat.mul_le_mul_left _ hl
    have a2 : table (breathing_callback_index env s) * 256 / env.BACKLIGHT_LEVELS *
        env.BACKLIGHT_LEVELS ≤ table (breathing_callback_index env s) * 256 :=
      Nat.div_mul_le_self _ _
    omega

/-- Witness of the amended C16: BACKLIGHT_LEVELS = 3, level 2, period 1, counter 127. -/
theorem breathing_callback_duty_witness :
    scale_backlight ⟨3, 2, 1⟩
      (table (breathing_callback_index ⟨3, 2, 1⟩
        { power_on with g_breathing_counter := 127 }) * 256) =
      table (breathing_callback_index ⟨3, 2, 1⟩
        { power_on with g_breathing_counter := 127 }) * 256 / 3 * 2 :=
  (breathing_callback_duty ⟨3, 2, 1⟩ { power_on with g_breathing_counter := 127 }).2.2
    (by decide)

/-- C17: an engine that is active with halt mode `BREATHING_NO_HALT` is still active, with
halt mode `BREATHING_NO_HALT`, after any number n of callbacks, for every period and every
starting counter. -/
theorem breathing_runs_until_halted (env : Env) (s : State) (n : Nat)
    (ha : is_breathing s = true) (hh : s.g_breathing_halt = BREATHING_NO_HALT) :
    is_breathing (breathing_callbacks env n s) = true ∧
    (breathing_callbacks env n s).g_breathing_halt = BREATHING_NO_HALT := by
  have hkeep : (breathing_callbacks env n s).callback = s.callback := by
    apply breathing_callbacks_callback_kept
    intro j _ hc
    rw [hh] at hc
    rcases hc with ⟨h, _⟩ | ⟨h, _⟩
    · exact absurd h (by decide)
    · exact absurd h (by decide)
  refine ⟨?_, by rw [breathing_callbacks_halt, hh]⟩
  rw [is_breathing_iff, hkeep, ← is_breathing_iff]
  exact ha

/-- Witness of C17: 1000 callbacks with period 4 after `breathing_enable`. -/
theorem breathing_runs_until_halted_witness :
    is_breathing (breathing_callbacks ⟨3, 2, 4⟩ 1000 (breathing_enable power_on)) = true ∧
    (breathing_callbacks ⟨3, 2, 4⟩ 1000 (breathing_enable power_on)).g_breathing_halt =
      BREATHING_NO_HALT :=
  breathing_runs_until_halted ⟨3, 2, 4⟩ (breathing_enable power_on) 1000 rfl rfl

/-- C18: for a period P in [1, 255] and every starting counter, after `breathing_callback`
the phase counter is below P * 256, the divisor `interval` is 2 * P and not 0, and the
index is counter / (2 * P), below 128 and so inside `breathing_table`; the trailing
`% BREATHING_STEPS` leaves the quotient as it is. -/
theorem breathing_callback_phase_invariant (env : Env) (s : State)
    (h1 : 1 ≤ env.get_breathing_period) (h2 : env.get_breathing_period ≤ 255) :
    (breathing_callback env s).g_breathing_counter < env.get_breathing_period * 256 ∧
    breathing_callback_interval env = 2 * env.get_breathing_period ∧
    breathing_callback_interval env ≠ 0 ∧
    breathing_callback_index env s =
      (breathing_callback env s).g_breathing_counter / (2 * env.get_breathing_period) ∧
    breathing_callback_index env s < 128 ∧
    breathing_callback_index env s < breathing_table.length ∧
    (breathing_callback env s).g_breathing_counter / breathing_callback_interval env %
        BREATHING_STEPS =
      (breathing_callback env s).g_breathing_counter / breathing_callback_interval env := by
  obtain ⟨hcnt, hlt⟩ := breathing_callback_counter_eq env s h1 h2
  have hint := breathing_callback_interval_eq env h1 h2
  obtain ⟨hidx, hi⟩ := breathing_callback_index_eq env s h1 h2
  rw [← hcnt] at hidx
  have hlen : breathing_table.length = 128 := rfl
  refine ⟨hlt, hint, by omega, hidx, hi, by omega, ?_⟩
  rw [hint, ← hidx]
  exact Nat.mod_eq_of_lt hi

/-- Witness of C18: period 1 and the out-of-range counter 65535. -/
theorem breathing_callback_phase_invariant_witness :
    (breathing_callback ⟨3, 2, 1⟩
      { power_on with g_breathing_counter := 65535 }).g_breathing_counter < 1 * 256 :=
  (breathing_callback_phase_invariant ⟨3, 2, 1⟩
    { power_on with g_breathing_counter := 65535 } (by decide) (by decide)).1

/-- C19: for a period P in [1, 255], every phase counter and an active engine whose halt
mode is `BREATHING_HALT_ON` or `BREATHING_HALT_OFF`, there is an n with 1 ≤ n ≤ P * 256
such that the engine is active after each of the first n - 1 callbacks and inactive after
the n-th, and the n-th callback is the first whose index is the target, 64 for
`BREATHING_HALT_ON` and 127 for `BREATHING_HALT_OFF`. -/
theorem breathing_self_disable_takes_effect (env : Env) (s : State)
    (h1 : 1 ≤ env.get_breathing_period) (h2 : env.get_breathing_period ≤ 255)
    (ha : is_breathing s = true)
    (hh : s.g_breathing_halt = BREATHING_HALT_ON ∨ s.g_breathing_halt = BREATHING_HALT_OFF) :
    ∃ n, 1 ≤ n ∧ n ≤ env.get_breathing_period * 256 ∧
      (∀ k, k < n → is_breathing (breathing_callbacks env k s) = true) ∧
      is_breathing (breathing_callbacks env n s) = false ∧
      breathing_callback_index env (breathing_callbacks env (n - 1) s) =
        (if s.g_breathing_halt = BREATHING_HALT_ON then 64 else 127) ∧
      (∀ k, k < n - 1 → breathing_callback_index env (breathing_callbacks env k s) ≠
        (if s.g_breathing_halt = BREATHING_HALT_ON then 64 else 127)) := by
  rcases hh with hon | hoff
  · rw [if_pos hon]
    apply breathing_halts_at_first_target env s h1 h2 ha 64 (by decide)
    intro i
    rw [hon]
    constructor
    · rintro (⟨_, h⟩ | ⟨h, _⟩)
      · exact h
      · exact absurd h (by decide)
    · intro h
      exact Or.inl ⟨rfl, h⟩
  · have hne : ¬ s.g_breathing_halt = BREATHING_HALT_ON := by
      rw [hoff]; decide
    rw [if_neg hne]
    apply breathing_halts_at_first_target env s h1 h2 ha 127 (by decide)
    intro i
    rw [hoff]
    constructor
    · rintro (⟨h, _⟩ | ⟨_, h⟩)
      · exact absurd h (by decide)
      · exact h
    · intro h
      exact Or.inr ⟨rfl, h⟩

/-- Witness of C19: period 1, counter 200 and `BREATHING_HALT_OFF` on a running engine. -/
theorem breathing_self_disable_takes_effect_witness :
    ∃ n, 1 ≤ n ∧ n ≤ 1 * 256 ∧
      (∀ k, k < n → is_breathing (breathing_callbacks ⟨3, 0, 1⟩ k
        { breathing_enable power_on with
          g_breathing_counter := 200, g_breathing_halt := BREATHING_HALT_OFF }) = true) ∧
      is_breathing (breathing_callbacks ⟨3, 0, 1⟩ n
        { breathing_enable power_on with
          g_breathing_counter := 200, g_breathing_halt := BREATHING_HALT_OFF }) = false ∧
      breathing_callback_index ⟨3, 0, 1⟩ (breathing_callbacks ⟨3, 0, 1⟩ (n - 1)
        { breathing_enable power_on with
          g_breathing_counter := 200, g_breathing_halt := BREATHING_HALT_OFF }) =
        (if BREATHING_HALT_OFF = BREATHING_HALT_ON then 64 else 127) ∧
      (∀ k, k < n - 1 → breathing_callback_index ⟨3, 0, 1⟩ (breathing_callbacks ⟨3, 0, 1⟩ k
        { breathing_enable power_on with
          g_breathing_counter := 200, g_breathing_halt := BREATHING_HALT_OFF }) ≠
        (if BREATHING_HALT_OFF = BREATHING_HALT_ON then 64 else 127)) :=
  breathing_self_disable_takes_effect ⟨3, 0, 1⟩
    { breathing_enable power_on with
      g_breathing_counter := 200, g_breathing_halt := BREATHING_HALT_OFF }
    (by decide) (by decide) rfl (Or.inr rfl)

/-- C20: `cie_lightness` is non-decreasing within each of its two segments: for
a ≤ b ≤ 5243, and for 5244 ≤ a ≤ b ≤ 65535, `cie_lightness a ≤ cie_lightness b`. -/
theorem cie_lightness_monotone_on_segments (a b : Nat) (hab : a ≤ b) :
    (b ≤ 5243 → cie_lightness a ≤ cie_lightness b) ∧
    (5244 ≤ a → b ≤ 65535 → cie_lightness a ≤ cie_lightness b) :=
  ⟨fun hb => cie_lightness_mono_low a b hab hb,
   fun ha hb => cie_lightness_mono_cubic a b (by omega) hab hb⟩

/-- Witness of C20: the pairs (1000, 5243) and (5244, 65535). -/
theorem cie_lightness_monotone_on_segments_witness :
    cie_lightness 1000 ≤ cie_lightness 5243 ∧ cie_lightness 5244 ≤ cie_lightness 65535 :=
  ⟨(cie_lightness_monotone_on_segments 1000 5243 (by decide)).1 (by decide),
   (cie_lightness_monotone_on_segments 5244 65535 (by decide)).2 (by decide) (by decide)⟩

end TP69
